import Mathlib

/-
  Verification of the Squidle imaging-processing export pipeline.

  The two Python sources (image_collection_with_ann.py and
  single_image_with_ann.py) are shallowly embedded below.  Tabular data
  (pandas DataFrames) is modelled as a list of association-list rows
  together with a column list; JSON record data is modelled by the `Json`
  inductive.  Floating-point values are outside the model: cell values are
  null, integers, strings, arrays or nested objects, which covers the
  identifier-joining, projection and filtering logic the development is
  about.  Remote HTTP calls are modelled as oracle functions supplied by
  the caller; an `Except.error ()` response stands for any raised
  exception on that call.
-/

namespace Squidle

/-- JSON-like record values (no floats: fractional numerics are outside the
model). `null` stands for Python `None` and for pandas missing values.
Arrays and objects are embedded as constructor chains (`arrCons`/`objCons`)
rather than nested lists, so every recursion over values is plainly
structural; `arrOf` and `objOf` build them from ordinary lists. -/
inductive Json where
  | null : Json
  | jint (n : Int) : Json
  | jstr (s : String) : Json
  | arrNil : Json
  | arrCons (hd : Json) (tl : Json) : Json
  | objNil : Json
  | objCons (key : String) (val : Json) (tl : Json) : Json

/-- Build an object (dict) value from a field list. -/
def objOf : List (String × Json) → Json
  | [] => Json.objNil
  | (k, v) :: rest => Json.objCons k v (objOf rest)

/-- Build an array value from an element list. -/
def arrOf : List Json → Json
  | [] => Json.arrNil
  | j :: rest => Json.arrCons j (arrOf rest)

/-- Python `part in cur and cur[part]` on a value: key lookup succeeding
only on dict values (first matching key; dict keys are unique). -/
def lookupKey (part : String) : Json → Option Json
  | Json.objCons k v tl => if k == part then some v else lookupKey part tl
  | _ => none

/-- A table row: one cell per column name, as an association list. -/
abbrev Row := List (String × Json)

/-- Cell access: the value stored under column `c`, or `null` when the row
has no such column (pandas missing value / absent key). -/
def Row.get (r : Row) (c : String) : Json :=
  (List.lookup c r).getD Json.null

/-- A pandas DataFrame: a column list plus a list of rows. -/
structure Table where
  cols : List String
  rows : List Row

/-- Cell of row `i`, column `c` (null when out of range or absent). -/
def Table.cell (t : Table) (i : Nat) (c : String) : Json :=
  Row.get (t.rows.getD i []) c

/- ===== String primitives =====
The embedding implements the handful of Python string operations it needs
(lower-casing, splitting on ".", substring and suffix tests, integer
parsing) by structural recursion over the character list, so every
concrete instance computes by definitional reduction.  Column names and
identifiers are ASCII, which these implementations cover. -/

/-- ASCII lower-casing of one character (Python `str.lower` on ASCII). -/
def charLower (c : Char) : Char :=
  if c.toNat ≥ 65 && c.toNat ≤ 90 then Char.ofNat (c.toNat + 32) else c

/-- The character list of `s.lower()`. -/
def lowerData (s : String) : List Char :=
  s.data.map charLower

/-- Python `s.endswith(p)` on character lists. -/
def listEndsWith (s p : List Char) : Bool :=
  s.drop (s.length - p.length) == p

/-- Is `p` a prefix of `s`? -/
def isPrefixChars : List Char → List Char → Bool
  | [], _ => true
  | _ :: _, [] => false
  | p :: ps, c :: cs => p == c && isPrefixChars ps cs

/-- Python `pat in s` (substring containment) on character lists. -/
def containsChars (pat : List Char) : List Char → Bool
  | [] => isPrefixChars pat []
  | c :: cs => isPrefixChars pat (c :: cs) || containsChars pat cs

/-- Python `dotted.split(".")` on the character list: splitting on the
single dot separator, keeping empty components. -/
def splitOnDotChars : List Char → List (List Char)
  | [] => [[]]
  | c :: rest =>
      if c == '.' then [] :: splitOnDotChars rest
      else
        match splitOnDotChars rest with
        | [] => [[c]]
        | g :: gs => (c :: g) :: gs

/-- Model of `dotted.split(".")` as strings. -/
def splitDotted (s : String) : List String :=
  (splitOnDotChars s.data).map String.mk

/-- Whitespace recognised when parsing numerics. -/
def isSpaceChar (c : Char) : Bool :=
  c == ' ' || c == '\t' || c == '\n' || c == '\r'

/-- Strip leading and trailing whitespace. -/
def trimChars (cs : List Char) : List Char :=
  ((cs.dropWhile isSpaceChar).reverse.dropWhile isSpaceChar).reverse

/-- Accumulate a digit string into a number; any non-digit fails. -/
def digitsValGo : List Char → Nat → Option Nat
  | [], acc => some acc
  | c :: rest, acc =>
      if c.isDigit then digitsValGo rest (acc * 10 + (c.toNat - 48)) else none

/-- Value of a non-empty digit string. -/
def digitsVal : List Char → Option Nat
  | [] => none
  | cs => digitsValGo cs 0

/-- Integer parse of a trimmed character list: optional sign, then
digits; anything else fails (Python `int(...)` raising, or
`pd.to_numeric(..., errors="coerce")` yielding missing, on the float-free
domain). -/
def pyToIntChars : List Char → Option Int
  | '-' :: rest => (digitsVal rest).map (fun n => -(n : Int))
  | '+' :: rest => (digitsVal rest).map (fun n => (n : Int))
  | cs => (digitsVal cs).map (fun n => (n : Int))

/-- Integer parse of a string, tolerating surrounding whitespace. -/
def pyToInt (s : String) : Option Int :=
  pyToIntChars (trimChars s.data)

/- ===== Dotted-Path Projector (single_image_with_ann.py, get_by_dotted) ===== -/

/-- The descent loop of `get_by_dotted`: walk the already-split path
components; any missing key or non-dict intermediate yields the default
(`return default` in the source). -/
def getByDottedGo (default : Json) : List String → Json → Json
  | [], cur => cur
  | part :: rest, cur =>
      match lookupKey part cur with
      | some v => getByDottedGo default rest v
      | none => default

/-- Model of `get_by_dotted(d, dotted, default)` from single_image_with_ann.py:
split the dotted path on "." and descend. -/
def get_by_dotted (d : Json) (dotted : String) (default : Json) : Json :=
  getByDottedGo default (splitDotted dotted) d

/-- Pure descent as an Option: `some` of the value reached, `none` as soon
as a component is missing or the current value is not a mapping. -/
def dottedDescend : List String → Json → Option Json
  | [], cur => some cur
  | part :: rest, cur =>
      match lookupKey part cur with
      | some v => dottedDescend rest v
      | none => none

/- ===== Join-Key Detector (detect_ann_media_col, both sources) ===== -/

/-- The canonical join-key suffixes tried by `detect_ann_media_col`. -/
def mediaSuffixes : List String :=
  ["point.media.id", "media.id", "media_id", "point_media_id"]

/-- Model of `c.lower().endswith(("point.media.id","media.id","media_id","point_media_id"))`. -/
def hasMediaSuffix (c : String) : Bool :=
  mediaSuffixes.any (fun s => listEndsWith (lowerData c) s.data)

/-- The loose fallback test: lower-cased name contains "media" and "id". -/
def looseMediaId (c : String) : Bool :=
  containsChars (("media").data) (lowerData c)
    && containsChars (("id").data) (lowerData c)

/-- Model of `detect_ann_media_col` (identical in both sources): first build the
list of suffix candidates and take its head; otherwise scan for a loose
match; otherwise raise ValueError naming the first 20 columns. -/
def detect_ann_media_col (cols : List String) : Except String String :=
  let cands := cols.filter hasMediaSuffix
  match cands with
  | c :: _ => Except.ok c
  | [] =>
    match cols.find? looseMediaId with
    | some c => Except.ok c
    | none =>
        Except.error
          ("Could not find a media-id column in annotations. First cols: "
            ++ String.intercalate (", ") (cols.take 20))

/- ===== Numeric coercions ===== -/

/-- Model of `pd.to_numeric(v, errors="coerce").astype("Int64")` on one cell, over
the float-free value domain: integers pass through, integer-formatted
strings parse, everything else (null, non-numeric, arrays, objects)
coerces to missing. -/
def toNumericInt : Json → Option Int
  | Json.jint n => some n
  | Json.jstr s => pyToInt s
  | _ => none

/-- Python `int(v)` as a partial function: `none` models a raised
`TypeError`/`ValueError` (for `None`, non-numeric strings, containers). -/
def pyInt : Json → Option Int
  | Json.jint n => some n
  | Json.jstr s => pyToInt s
  | _ => none

/- ===== Referential Filter (post_filter_ann_to_media_ids) ===== -/

/-- The row-keep predicate of the Referential Filter:
`pd.to_numeric(ann_df[col], errors="coerce").astype("Int64")` followed by
`.isin(media_ids)` — missing/non-numeric values are never members. -/
def keepRow (col : String) (media_ids : List Int) (r : Row) : Bool :=
  match toNumericInt (Row.get r col) with
  | some n => media_ids.contains n
  | none => false

/-- Model of `post_filter_ann_to_media_ids` from image_collection_with_ann.py:
empty tables pass through; otherwise detect the join-key column (a
detection failure is the raised ValueError) and keep member rows. -/
def post_filter_ann_to_media_ids (ann : Table) (media_ids : List Int) :
    Except String Table :=
  if ann.rows.isEmpty then Except.ok ann
  else
    match detect_ann_media_col ann.cols with
    | Except.error e => Except.error e
    | Except.ok col =>
        Except.ok (Table.mk ann.cols (ann.rows.filter (keepRow col media_ids)))

/- ===== pd.json_normalize over the float-free domain ===== -/

/-- Prefix a flattened column name with its parent key and a dot. -/
def prefixKey (k : String) (p : String × Json) : String × Json :=
  (k ++ "." ++ p.1, p.2)

/-- Flatten one record value the way `pd.json_normalize` does: for a dict,
`some` of its flat field list — nested dicts descended with "." separators
(empty dicts contributing nothing), every other value (including arrays)
a leaf cell; `none` for a non-dict value. -/
def flattenVal : Json → Option (List (String × Json))
  | Json.objNil => some []
  | Json.objCons k v tl =>
      some ((match flattenVal v with
             | some l => l.map (prefixKey k)
             | none => [(k, v)]) ++ (flattenVal tl).getD [])
  | _ => none

/-- The flat row `pd.json_normalize` produces for one record. -/
def normRow (j : Json) : Row :=
  (flattenVal j).getD []

/-- Model of `pd.json_normalize(recs)`: one row per record, columns the union of
all observed dotted paths; paths missing from a record read as missing
(`Row.get` returns null). -/
def jsonNormalizeTable (recs : List Json) : Table :=
  Table.mk ((recs.map (fun r => (normRow r).map Prod.fst)).flatten.dedup)
    (recs.map normRow)

/-- Model of `js.get("objects", js)`: a dict response yields its "objects" entry
when present, otherwise the whole value. -/
def getObjects (j : Json) : Json :=
  (lookupKey ("objects") j).getD j

/-- Coerce the extracted payload into a record list the way
`pd.json_normalize` receives it: a JSON array is a list of records, a
single dict is one record. -/
def toRecList : Json → List Json
  | Json.arrNil => []
  | Json.arrCons hd tl => hd :: toRecList tl
  | Json.objNil => [Json.objNil]
  | Json.objCons k v tl => [Json.objCons k v tl]
  | _ => []

/- ===== Schema-Tolerant Exporter (image_collection_with_ann.py) ===== -/

/-- Model of `list(set((include_columns or []) + ["id","path_best"]))`: the set
dedups; Python's set order is unspecified, modelled as `List.dedup`
(only membership matters downstream). -/
def includeWithRequired (include_columns : List String) : List String :=
  (include_columns ++ ["id", "path_best"]).dedup

/-- The remote surface used by `export_media_collection_csv`: the
server-side `json_normalize` → CSV pipeline, and the raw-JSON template,
each as a function of the requested include columns.  `Except.error ()`
models any exception raised by the request. -/
structure MediaRemote where
  csvExport : List String → Except Unit Table
  jsonExport : List String → Except Unit Json

/-- Modelled from the spec: the remote service's server-side
`json_normalize` export pipeline is not part of this repository (spec §6:
export endpoint with a `json_normalize`-style flatten restricted to the
requested columns).  It flattens each record and presents exactly the
requested columns. -/
def serverNormalizeCsv (recs : List Json) (inc : List String) : Table :=
  Table.mk inc (recs.map normRow)

/-- Model of `export_media_collection_csv`: preferred server-side CSV path first;
on any exception, request raw JSON, take `objects`, `pd.json_normalize`
locally, and keep the requested columns that are present (all columns if
none are). -/
def export_media_collection_csv (rm : MediaRemote)
    (include_columns : List String) : Except Unit Table :=
  let inc := includeWithRequired include_columns
  match rm.csvExport inc with
  | Except.ok t => Except.ok t
  | Except.error _ =>
    match rm.jsonExport inc with
    | Except.error e => Except.error e
    | Except.ok js =>
      let df := jsonNormalizeTable (toRecList (getObjects js))
      let keep := inc.filter (fun c => df.cols.contains c)
      Except.ok (if keep.isEmpty then df else Table.mk keep df.rows)

/-- The remote surface used by `export_annotation_set_csv`: the
server-side CSV pipeline with (`some include`) or without (`none`) an
include-column list, plus the raw-JSON template — which the source never
consults for this resource. -/
structure AnnSetRemote where
  csvExport : Option (List String) → Except Unit Table
  jsonExport : List String → Except Unit Json

/-- Model of `export_annotation_set_csv`: preferred server-side CSV path with the
include list; on any exception, retry the same server-side CSV path
without include columns, then restrict locally to the requested columns
that are present (when the include list and the intersection are
non-empty). -/
def export_annotation_set_csv (rm : AnnSetRemote)
    (include_columns : List String) : Except Unit Table :=
  match rm.csvExport (some include_columns) with
  | Except.ok t => Except.ok t
  | Except.error _ =>
    match rm.csvExport none with
    | Except.error e => Except.error e
    | Except.ok df =>
      if include_columns.isEmpty then Except.ok df
      else
        let cols := include_columns.filter (fun c => df.cols.contains c)
        Except.ok (if cols.isEmpty then df else Table.mk cols df.rows)

/- ===== Constrained annotation query (single_image_with_ann.py) ===== -/

/-- The remote surface of `export_all_annotations_for_media`: one request
per candidate media-reference field (the annotation-set filter, field
list, limit and offset are fixed parts of each request), on the CSV and
the raw-JSON transports. -/
structure AnnQueryRemote where
  csvExport : String → Except Unit Table
  jsonExport : String → Except Unit Json

/-- The local hard-filter applied inside each attempt: on a non-empty
table, detect the media column (a detection failure is an exception that
aborts the attempt) and keep rows whose coerced value equals the target
media id. -/
def hardFilterToMedia (t : Table) (media_id : Int) : Except Unit Table :=
  if t.rows.isEmpty then Except.ok t
  else
    match detect_ann_media_col t.cols with
    | Except.error _ => Except.error ()
    | Except.ok col =>
        Except.ok (Table.mk t.cols
          (t.rows.filter (fun r => toNumericInt (Row.get r col) == some media_id)))

/-- One CSV-transport attempt (the body of the first try/except loop):
request, parse, and locally hard-filter; any exception fails the attempt. -/
def tryCsvAttempt (rm : AnnQueryRemote) (media_id : Int)
    (media_field : String) : Except Unit Table :=
  match rm.csvExport media_field with
  | Except.error e => Except.error e
  | Except.ok t => hardFilterToMedia t media_id

/-- One raw-JSON attempt (the body of the second try/except loop):
request JSON, take `objects`, normalize locally, hard-filter. -/
def tryJsonAttempt (rm : AnnQueryRemote) (media_id : Int)
    (media_field : String) : Except Unit Table :=
  match rm.jsonExport media_field with
  | Except.error e => Except.error e
  | Except.ok js =>
      hardFilterToMedia (jsonNormalizeTable (toRecList (getObjects js))) media_id

/-- Model of `export_all_annotations_for_media`: the CSV transport over both
candidate fields, then the JSON transport over both, returning the first
attempt that completes; if all four fail, an empty DataFrame with the
requested columns. -/
def export_all_annotations_for_media (rm : AnnQueryRemote) (media_id : Int)
    (ann_fields : List String) : Table :=
  match tryCsvAttempt rm media_id ("point.media.id") with
  | Except.ok t => t
  | Except.error _ =>
  match tryCsvAttempt rm media_id ("point.media_id") with
  | Except.ok t => t
  | Except.error _ =>
  match tryJsonAttempt rm media_id ("point.media.id") with
  | Except.ok t => t
  | Except.error _ =>
  match tryJsonAttempt rm media_id ("point.media_id") with
  | Except.ok t => t
  | Except.error _ => Table.mk ann_fields []

/-- First successful attempt out of a list of attempt results. -/
def firstOk (l : List (Except Unit Table)) : Option Table :=
  l.findSome? (fun e =>
    match e with
    | Except.ok t => some t
    | Except.error _ => none)

/- ===== Per-Identifier Resolver (fetch_annotations_by_ids_for_media_via_get) ===== -/

/-- The module-level `ENFORCE_ANNSET` constant of single_image_with_ann.py. -/
def ENFORCE_ANNSET : Bool := true

/-- Model of `isinstance(js, dict) and js.get("id") is not None` (negated guard of
the existence check). -/
def hasRecordId (js : Json) : Bool :=
  match lookupKey ("id") js with
  | some Json.null => false
  | some _ => true
  | none => false

/-- Model of `get_by_dotted(js, "point.media.id", default=get_by_dotted(js,
"point.media_id", default=None))`. -/
def mediaRefOf (js : Json) : Json :=
  get_by_dotted js ("point.media.id") (get_by_dotted js ("point.media_id") Json.null)

/-- Model of `get_by_dotted(js, "annotation_set_id", default=get_by_dotted(js,
"point.annotation_set_id", default=None))`. -/
def annsetRefOf (js : Json) : Json :=
  get_by_dotted js ("annotation_set_id")
    (get_by_dotted js ("point.annotation_set_id") Json.null)

/-- The media-ownership check: passes when the resolved reference is
non-null, its `int(...)` coercion does not raise, and the value equals
the target (a raised coercion error is caught by the enclosing
try/except and skips the id, exactly like a mismatch). -/
def mediaCheck (js : Json) (media_id : Int) : Bool :=
  pyInt (mediaRefOf js) == some media_id

/-- The optional annotation-set ownership check (enforced only when a set
id was supplied and `ENFORCE_ANNSET` is set). -/
def annsetCheck (js : Json) (annset_id : Option Int) : Bool :=
  match annset_id with
  | none => true
  | some sid => if ENFORCE_ANNSET then pyInt (annsetRefOf js) == some sid else true

/-- Model of `{k: get_by_dotted(js, k, "") for k in ann_fields}` as a row. -/
def projectRow (js : Json) (ann_fields : List String) : Row :=
  ann_fields.map (fun k => (k, get_by_dotted js k (Json.jstr (""))))

/-- What one identifier contributes: `none` when the GET raises, the
record is not a dict with an id, or an ownership check fails; otherwise
the projected row. -/
def resolveOne (oracle : Int → Except Unit Json) (media_id : Int)
    (annset_id : Option Int) (ann_fields : List String) (aid : Int) : Option Row :=
  match oracle aid with
  | Except.error _ => none
  | Except.ok js =>
      if hasRecordId js && mediaCheck js media_id && annsetCheck js annset_id then
        some (projectRow js ann_fields)
      else none

/-- The per-identifier loop of `fetch_annotations_by_ids_for_media_via_get`
with its three `continue` sites and the catch-all that skips a failed GET. -/
def fetchRowsGo (oracle : Int → Except Unit Json) (media_id : Int)
    (annset_id : Option Int) (ann_fields : List String) : List Int → List Row
  | [] => []
  | aid :: rest =>
      match oracle aid with
      | Except.error _ => fetchRowsGo oracle media_id annset_id ann_fields rest
      | Except.ok js =>
          if !(hasRecordId js) then fetchRowsGo oracle media_id annset_id ann_fields rest
          else if !(mediaCheck js media_id) then
            fetchRowsGo oracle media_id annset_id ann_fields rest
          else if !(annsetCheck js annset_id) then
            fetchRowsGo oracle media_id annset_id ann_fields rest
          else projectRow js ann_fields ::
            fetchRowsGo oracle media_id annset_id ann_fields rest

/-- Model of `fetch_annotations_by_ids_for_media_via_get`: run the loop; both the
no-rows and the some-rows exits build a DataFrame whose columns are the
requested field list. -/
def fetch_annotations_by_ids_for_media_via_get (oracle : Int → Except Unit Json)
    (media_id : Int) (annotation_ids : List Int) (annset_id : Option Int)
    (ann_fields : List String) : Table :=
  Table.mk ann_fields (fetchRowsGo oracle media_id annset_id ann_fields annotation_ids)

/- ===== Bulk Asset Downloader (download_images_from_export) ===== -/

/-- Model of `str(row.get(url_col, "") or "")` over the float-free domain: falsy
values (None, "", 0, empty containers) give the empty string; non-empty
containers stringify to some non-empty repr. -/
def pyUrlStr : Json → String
  | Json.null => ""
  | Json.jstr s => s
  | Json.jint n => if n == 0 then "" else toString n
  | Json.arrNil => ""
  | Json.arrCons _ _ => "list"
  | Json.objNil => ""
  | Json.objCons _ _ _ => "dict"

/-- Python dict assignment `saved[mid] = p` on an association list. -/
def updateAssoc (l : List (Int × String)) (k : Int) (v : String) :
    List (Int × String) :=
  if l.any (fun p => p.1 == k) then
    l.map (fun p => if p.1 == k then (k, v) else p)
  else l ++ [(k, v)]

/-- The submission/collection loop of `download_images_from_export`: skip
empty-URL rows before scheduling; `int(row[id_col])` raising (missing or
non-numeric id) escapes the batch (`Except.error`); each scheduled item
either saves a path or is logged and dropped. The download oracle maps
(media id, url) to `some` saved path or `none` for a caught failure. -/
def dlGo (dl : Int → String → Option String) (url_col id_col : String) :
    List Row → List (Int × String) → Except Unit (List (Int × String))
  | [], acc => Except.ok acc
  | r :: rest, acc =>
      if pyUrlStr (Row.get r url_col) == "" then dlGo dl url_col id_col rest acc
      else
        match pyInt (Row.get r id_col) with
        | none => Except.error ()
        | some mid =>
            match dl mid (pyUrlStr (Row.get r url_col)) with
            | some p => dlGo dl url_col id_col rest (updateAssoc acc mid p)
            | none => dlGo dl url_col id_col rest acc

/-- Model of `download_images_from_export`: the result dict over all media rows
(completion order does not affect the dict contents; the loop processes
rows in submission order). -/
def download_images_from_export (media : Table)
    (dl : Int → String → Option String) (url_col id_col : String) :
    Except Unit (List (Int × String)) :=
  dlGo dl url_col id_col media.rows []

/-- The media id extracted from a row by the downloader (total version of
`int(row[id_col])`; meaningful when the coercion succeeds). -/
def rowMid (id_col : String) (r : Row) : Int :=
  (pyInt (Row.get r id_col)).getD 0

/-- The URL string extracted from a row by the downloader. -/
def rowUrl (url_col : String) (r : Row) : String :=
  pyUrlStr (Row.get r url_col)

/- ===== Concrete instances used by witnesses and counterexamples ===== -/

/-- Sample field list for the resolver scenarios. -/
def annFieldsSample : List String := ["id", "point.x", "point.media.id"]

/-- A record owned by media 5. -/
def recA : Json :=
  objOf [("id", Json.jint 101),
    ("point", objOf [("x", Json.jint 10),
      ("media", objOf [("id", Json.jint 5)])])]

/-- A record owned by media 7 (a different media). -/
def recB : Json :=
  objOf [("id", Json.jint 102),
    ("point", objOf [("x", Json.jint 20),
      ("media", objOf [("id", Json.jint 7)])])]

/-- A GET oracle knowing ids 101 (media 5) and 102 (media 7); every other
lookup raises. -/
def oracleAB : Int → Except Unit Json := fun aid =>
  if aid == 101 then Except.ok recA
  else if aid == 102 then Except.ok recB
  else Except.error ()

/-- Extract the table of a successful export (dummy empty table on the
error side; used to name concrete results in witnesses). -/
def okTableOf {ε : Type} : Except ε Table → Table
  | Except.ok t => t
  | Except.error _ => Table.mk [] []

/-- The end-to-end filter scenario table: media references 1, 4, "bad", 2. -/
def annSampleC1 : Table :=
  Table.mk ["id", "point.media.id"]
    [[("id", Json.jint 1), ("point.media.id", Json.jint 1)],
     [("id", Json.jint 2), ("point.media.id", Json.jint 4)],
     [("id", Json.jint 3), ("point.media.id", Json.jstr ("bad"))],
     [("id", Json.jint 4), ("point.media.id", Json.jint 2)]]

/-- A remote whose CSV transport returns rows for media 5 and 6; the
server-side equality filter is (deliberately) ignored. -/
def rmC10 : AnnQueryRemote :=
  AnnQueryRemote.mk
    (fun _ => Except.ok (Table.mk ["point.media.id"]
      [[("point.media.id", Json.jint 5)], [("point.media.id", Json.jint 6)]]))
    (fun _ => Except.error ())

/-- Fixed underlying records for the fallback-equivalence witness. -/
def recsC2 : List Json :=
  [objOf [("id", Json.jint 1), ("path_best", Json.jstr ("u1"))],
   objOf [("id", Json.jint 2), ("path_best", Json.jstr ("u2"))]]

/-- A media remote whose preferred path succeeds over `recsC2`. -/
def rm1C2 : MediaRemote :=
  MediaRemote.mk (fun inc => Except.ok (serverNormalizeCsv recsC2 inc))
    (fun _ => Except.error ())

/-- A media remote whose preferred path fails but whose raw-JSON path
serves the same records. -/
def rm2C2 : MediaRemote :=
  MediaRemote.mk (fun _ => Except.error ())
    (fun _ => Except.ok (objOf [("objects", arrOf recsC2)]))

/-- An annotation-set remote whose preferred path succeeds over `recsC2`. -/
def am1C2 : AnnSetRemote :=
  AnnSetRemote.mk
    (fun o =>
      match o with
      | some inc => Except.ok (serverNormalizeCsv recsC2 inc)
      | none => Except.error ())
    (fun _ => Except.error ())

/-- An annotation-set remote whose preferred path fails but whose
no-include-columns CSV path serves the same records. -/
def am2C2 : AnnSetRemote :=
  AnnSetRemote.mk
    (fun o =>
      match o with
      | some _ => Except.error ()
      | none => Except.ok (jsonNormalizeTable recsC2))
    (fun _ => Except.error ())

/-- A record for the fallback counterexample. -/
def recC3 : Json := objOf [("id", Json.jint 1)]

/-- A remote for which only the raw-JSON transport works: every CSV
request (with or without include columns) fails, while the raw-JSON
template would serve one record. -/
def amJsonOnly : AnnSetRemote :=
  AnnSetRemote.mk (fun _ => Except.error ())
    (fun _ => Except.ok (objOf [("objects", arrOf [recC3])]))

/-- Downloader witness row: media 1, good URL. -/
def rowC6a : Row := [("id", Json.jint 1), ("path_best", Json.jstr ("u1"))]

/-- Downloader witness row: media 2, the one failing URL. -/
def rowC6b : Row := [("id", Json.jint 2), ("path_best", Json.jstr ("u2"))]

/-- Downloader witness row: media 3, good URL. -/
def rowC6c : Row := [("id", Json.jint 3), ("path_best", Json.jstr ("u3"))]

/-- The three-row witness media table. -/
def dlRowsC6 : List Row := [rowC6a, rowC6b, rowC6c]

/-- A download oracle failing exactly on media id 2. -/
def dlOracleC6 : Int → String → Option String :=
  fun mid _ => if mid == 2 then none else some ("saved")

/- ===== Helper lemmas ===== -/

/-- The descent loop agrees with the Option-valued descent, defaulting on
failure. -/
theorem getByDottedGo_eq_descend (dflt : Json) (ps : List String) (cur : Json) :
    getByDottedGo dflt ps cur = (dottedDescend ps cur).getD dflt := by
  induction ps generalizing cur with
  | nil => rfl
  | cons p rest ih =>
      simp only [getByDottedGo, dottedDescend]
      cases lookupKey p cur with
      | none => rfl
      | some v => exact ih v

/-- Converting a built array value back to its element list. -/
theorem toRecList_arrOf (recs : List Json) : toRecList (arrOf recs) = recs := by
  induction recs with
  | nil => rfl
  | cons r rest ih => simp [arrOf, toRecList, ih]

/-- Head of a filtered list is the first element satisfying the predicate. -/
theorem filterHead_eq_find {α : Type} (p : α → Bool) (l : List α) :
    (l.filter p).head? = l.find? p := by
  induction l with
  | nil => rfl
  | cons a l ih =>
      by_cases h : p a
      · simp [List.filter_cons, List.find?, h]
      · simp only [List.filter_cons, List.find?]
        rw [if_neg (by simp [h])]
        simp [h, ih]

/- ===== C7 ===== -/

/-- C7: the Dotted-Path Projector resolves a dotted path by descending the
mapping one dot-separated component at a time and returns the value
reached; as soon as a component is missing or the current value is not a
mapping it returns the caller's default. It is a total pure function, so
it never raises and has no side effects. -/
theorem dotted_path_projector_contract (d : Json) (dotted : String) (dflt : Json) :
    get_by_dotted d dotted dflt
      = (dottedDescend (splitDotted dotted) d).getD dflt :=
  getByDottedGo_eq_descend dflt (splitDotted dotted) d

/- ===== C4 ===== -/

/-- C4: the Join-Key Detector returns the first column (in column order)
whose lower-cased name ends with one of the canonical suffixes; failing
that, the first column whose lower-cased name contains both "media" and
"id"; failing that, an error reporting the first 20 observed column
names. Being an equation about a pure function, it also shows repeated
calls on the same column list return the same column. -/
theorem join_key_detector_contract (cols : List String) :
    detect_ann_media_col cols =
      match cols.find? hasMediaSuffix with
      | some c => Except.ok c
      | none =>
        match cols.find? looseMediaId with
        | some c => Except.ok c
        | none =>
            Except.error
              ("Could not find a media-id column in annotations. First cols: "
                ++ String.intercalate (", ") (cols.take 20)) := by
  unfold detect_ann_media_col
  rw [← filterHead_eq_find hasMediaSuffix cols]
  cases h : cols.filter hasMediaSuffix with
  | nil => simp [h]
  | cons c cs => simp [h]

/- ===== C9 ===== -/

/-- C9: the constrained annotation export tries the candidate
media-reference paths in the fixed order (CSV transport over
"point.media.id" then "point.media_id", then the raw-JSON transport over
the same two paths) and returns the first attempt that completes without
an exception — even a zero-row result; when all four attempts fail it
returns an empty table with the requested columns instead of raising. -/
theorem candidate_path_exporter_contract (rm : AnnQueryRemote) (media_id : Int)
    (ann_fields : List String) :
    export_all_annotations_for_media rm media_id ann_fields =
      (firstOk [tryCsvAttempt rm media_id ("point.media.id"),
                tryCsvAttempt rm media_id ("point.media_id"),
                tryJsonAttempt rm media_id ("point.media.id"),
                tryJsonAttempt rm media_id ("point.media_id")]).getD
        (Table.mk ann_fields []) := by
  unfold export_all_annotations_for_media firstOk
  cases h1 : tryCsvAttempt rm media_id ("point.media.id") with
  | ok t => simp [List.findSome?, h1]
  | error e1 =>
      cases h2 : tryCsvAttempt rm media_id ("point.media_id") with
      | ok t => simp [List.findSome?, h1, h2]
      | error e2 =>
          cases h3 : tryJsonAttempt rm media_id ("point.media.id") with
          | ok t => simp [List.findSome?, h1, h2, h3]
          | error e3 =>
              cases h4 : tryJsonAttempt rm media_id ("point.media_id") with
              | ok t => simp [List.findSome?, h1, h2, h3, h4]
              | error e4 => simp [List.findSome?, h1, h2, h3, h4]

/- ===== C8 ===== -/

/-- C8: empty-input stability — the Referential Filter applied to an
empty annotation table returns that table unchanged without raising, and
the Per-Identifier Resolver given an empty identifier list returns an
empty table whose columns are exactly the requested fields. -/
theorem empty_input_stability :
    (∀ (ann : Table) (media_ids : List Int), ann.rows = [] →
        post_filter_ann_to_media_ids ann media_ids = Except.ok ann) ∧
    (∀ (oracle : Int → Except Unit Json) (media_id : Int) (annset_id : Option Int)
        (ann_fields : List String),
        fetch_annotations_by_ids_for_media_via_get oracle media_id [] annset_id ann_fields
          = Table.mk ann_fields []) := by
  constructor
  · intro ann media_ids h
    unfold post_filter_ann_to_media_ids
    rw [if_pos (by simp [h])]
  · intro oracle media_id annset_id ann_fields
    rfl

/-- Witness for C8 at a concrete table and identifier set. -/
theorem empty_input_stability_witness :
    post_filter_ann_to_media_ids (Table.mk ["id"] []) [3]
      = Except.ok (Table.mk ["id"] []) :=
  empty_input_stability.1 (Table.mk ["id"] []) [3] rfl

/- ===== C5 ===== -/

/-- The per-identifier loop accumulates exactly the per-id resolutions:
each identifier is handled independently, so a skip (failed GET, missing
record, ownership mismatch) never prevents later identifiers from being
processed. -/
theorem fetchRowsGo_eq_filterMap (oracle : Int → Except Unit Json) (media_id : Int)
    (annset_id : Option Int) (ann_fields : List String) (ids : List Int) :
    fetchRowsGo oracle media_id annset_id ann_fields ids
      = ids.filterMap (resolveOne oracle media_id annset_id ann_fields) := by
  induction ids with
  | nil => rfl
  | cons aid rest ih =>
      simp only [fetchRowsGo, List.filterMap_cons]
      cases h : oracle aid with
      | error e => simp [resolveOne, h, ih]
      | ok js =>
          by_cases h1 : hasRecordId js
          · by_cases h2 : mediaCheck js media_id
            · by_cases h3 : annsetCheck js annset_id
              · simp [resolveOne, h, h1, h2, h3, ih]
              · simp [resolveOne, h, h1, h2, h3, ih]
            · simp [resolveOne, h, h1, h2, ih]
          · simp [resolveOne, h, h1, ih]

/-- C5: the Per-Identifier Resolver handles each identifier independently
(the returned rows are exactly the per-id resolutions, so a mismatching or
failing identifier is excluded while the rest are still processed and a
failed fetch never aborts the batch); in particular for ids [A, B] where
A belongs to the target media and B to a different one, the result is the
single row for A, and a failed GET on the first id still lets the second
produce its row. -/
theorem per_identifier_resolver_isolation :
    (∀ (oracle : Int → Except Unit Json) (media_id : Int) (annset_id : Option Int)
        (ann_fields : List String) (ids : List Int),
        (fetch_annotations_by_ids_for_media_via_get oracle media_id ids annset_id
            ann_fields).rows
          = ids.filterMap (resolveOne oracle media_id annset_id ann_fields)) ∧
    (fetch_annotations_by_ids_for_media_via_get oracleAB 5 [101, 102] none annFieldsSample
        = Table.mk annFieldsSample [projectRow recA annFieldsSample]) ∧
    (fetch_annotations_by_ids_for_media_via_get oracleAB 5 [999, 101] none annFieldsSample
        = Table.mk annFieldsSample [projectRow recA annFieldsSample]) := by
  refine ⟨?_, ?_, ?_⟩
  · intro oracle media_id annset_id ann_fields ids
    exact fetchRowsGo_eq_filterMap oracle media_id annset_id ann_fields ids
  · rfl
  · rfl

/- ===== C1 ===== -/

/-- C1: every row retained by the Referential Filter has a join-key value
(in the column chosen by the Join-Key Detector) coercing to an integer in
the media-id set; every dropped row has a value that is absent/non-numeric
(coercion yields missing) or an integer outside the set; and the retained
rows are exactly the filtered original rows — nothing else is retained or
dropped. -/
theorem referential_filter_post (ann : Table) (media_ids : List Int) (col : String)
    (out : Table)
    (hcol : detect_ann_media_col ann.cols = Except.ok col)
    (h : post_filter_ann_to_media_ids ann media_ids = Except.ok out) :
    out.rows = ann.rows.filter (keepRow col media_ids) ∧
    (∀ r ∈ out.rows, ∃ n, toNumericInt (Row.get r col) = some n ∧ n ∈ media_ids) ∧
    (∀ r ∈ ann.rows, r ∉ out.rows →
        toNumericInt (Row.get r col) = none ∨
        ∃ n, toNumericInt (Row.get r col) = some n ∧ n ∉ media_ids) := by
  have hrows : out.rows = ann.rows.filter (keepRow col media_ids) := by
    unfold post_filter_ann_to_media_ids at h
    by_cases he : ann.rows.isEmpty
    · rw [if_pos he] at h
      injection h with h'
      rw [← h']
      rw [List.isEmpty_iff] at he
      rw [he]
      rfl
    · rw [if_neg he, hcol] at h
      injection h with h'
      rw [← h']
  refine ⟨hrows, ?_, ?_⟩
  · intro r hr
    rw [hrows] at hr
    have hk := List.of_mem_filter hr
    unfold keepRow at hk
    cases hn : toNumericInt (Row.get r col) with
    | none => rw [hn] at hk; cases hk
    | some n =>
        rw [hn] at hk
        exact ⟨n, rfl, by simpa using hk⟩
  · intro r hr hnr
    rw [hrows] at hnr
    have hk : keepRow col media_ids r = false := by
      cases hkk : keepRow col media_ids r with
      | false => rfl
      | true => exact absurd (List.mem_filter.mpr ⟨hr, hkk⟩) hnr
    unfold keepRow at hk
    cases hn : toNumericInt (Row.get r col) with
    | none => exact Or.inl rfl
    | some n =>
        rw [hn] at hk
        exact Or.inr ⟨n, rfl, by simpa using hk⟩

/-- Witness for C1: filtering the sample table against the set 1..3. -/
theorem referential_filter_post_witness :
    detect_ann_media_col annSampleC1.cols = Except.ok ("point.media.id") ∧
    post_filter_ann_to_media_ids annSampleC1 [1, 2, 3]
      = Except.ok (okTableOf (post_filter_ann_to_media_ids annSampleC1 [1, 2, 3])) ∧
    (okTableOf (post_filter_ann_to_media_ids annSampleC1 [1, 2, 3])).rows
      = annSampleC1.rows.filter (keepRow ("point.media.id") [1, 2, 3]) :=
  ⟨rfl, rfl,
    (referential_filter_post annSampleC1 [1, 2, 3] ("point.media.id")
      (okTableOf (post_filter_ann_to_media_ids annSampleC1 [1, 2, 3])) rfl rfl).1⟩

/- ===== C10 ===== -/

/-- A table passing the local hard-filter: each surviving row coerces to
the target media id at the detected column (columns are preserved by the
filter, so detection on the output equals detection on the input). -/
theorem hardFilter_mem (t : Table) (m : Int) (out : Table)
    (h : hardFilterToMedia t m = Except.ok out) (r : Row) (hr : r ∈ out.rows) :
    ∃ col, detect_ann_media_col out.cols = Except.ok col ∧
      toNumericInt (Row.get r col) = some m := by
  unfold hardFilterToMedia at h
  by_cases he : t.rows.isEmpty
  · rw [if_pos he] at h
    injection h with h'
    rw [← h'] at hr
    rw [List.isEmpty_iff] at he
    rw [he] at hr
    cases hr
  · rw [if_neg he] at h
    cases hd : detect_ann_media_col t.cols with
    | error e => rw [hd] at h; cases h
    | ok col =>
        rw [hd] at h
        injection h with h'
        rw [← h'] at hr ⊢
        refine ⟨col, hd, ?_⟩
        have hk := List.of_mem_filter hr
        simpa using hk

/-- A successful CSV attempt factors through the local hard-filter. -/
theorem tryCsv_ok (rm : AnnQueryRemote) (m : Int) (f : String) (t : Table)
    (h : tryCsvAttempt rm m f = Except.ok t) :
    ∃ t0, hardFilterToMedia t0 m = Except.ok t := by
  unfold tryCsvAttempt at h
  cases hc : rm.csvExport f with
  | error e => rw [hc] at h; cases h
  | ok t0 => rw [hc] at h; exact ⟨t0, h⟩

/-- A successful JSON attempt factors through the local hard-filter. -/
theorem tryJson_ok (rm : AnnQueryRemote) (m : Int) (f : String) (t : Table)
    (h : tryJsonAttempt rm m f = Except.ok t) :
    ∃ t0, hardFilterToMedia t0 m = Except.ok t := by
  unfold tryJsonAttempt at h
  cases hc : rm.jsonExport f with
  | error e => rw [hc] at h; cases h
  | ok js => rw [hc] at h; exact ⟨_, h⟩

/-- C10: every row of any table returned by the bulk
all-annotations-for-one-media export coerces, at the detected
media-reference column of the returned table, to exactly the target media
identifier — the local hard-filter enforces this on every successful
attempt, whatever the remote returned. -/
theorem local_refilter_invariant (rm : AnnQueryRemote) (media_id : Int)
    (ann_fields : List String) (r : Row)
    (hr : r ∈ (export_all_annotations_for_media rm media_id ann_fields).rows) :
    ∃ col, detect_ann_media_col
        (export_all_annotations_for_media rm media_id ann_fields).cols
          = Except.ok col ∧
      toNumericInt (Row.get r col) = some media_id := by
  unfold export_all_annotations_for_media at hr ⊢
  cases h1 : tryCsvAttempt rm media_id ("point.media.id") with
  | ok t =>
      rw [h1] at hr
      obtain ⟨t0, h0⟩ := tryCsv_ok rm media_id ("point.media.id") t h1
      exact hardFilter_mem t0 media_id t h0 r hr
  | error e1 =>
      rw [h1] at hr
      cases h2 : tryCsvAttempt rm media_id ("point.media_id") with
      | ok t =>
          rw [h2] at hr
          obtain ⟨t0, h0⟩ := tryCsv_ok rm media_id ("point.media_id") t h2
          exact hardFilter_mem t0 media_id t h0 r hr
      | error e2 =>
          rw [h2] at hr
          cases h3 : tryJsonAttempt rm media_id ("point.media.id") with
          | ok t =>
              rw [h3] at hr
              obtain ⟨t0, h0⟩ := tryJson_ok rm media_id ("point.media.id") t h3
              exact hardFilter_mem t0 media_id t h0 r hr
          | error e3 =>
              rw [h3] at hr
              cases h4 : tryJsonAttempt rm media_id ("point.media_id") with
              | ok t =>
                  rw [h4] at hr
                  obtain ⟨t0, h0⟩ := tryJson_ok rm media_id ("point.media_id") t h4
                  exact hardFilter_mem t0 media_id t h0 r hr
              | error e4 =>
                  rw [h4] at hr
                  exact absurd hr (List.not_mem_nil r)

/-- Witness for C10: the media-6 row is filtered out locally and the
surviving row coerces to the requested media id 5. -/
theorem local_refilter_invariant_witness :
    ∃ col, detect_ann_media_col
        (export_all_annotations_for_media rmC10 5 []).cols = Except.ok col ∧
      toNumericInt (Row.get [("point.media.id", Json.jint 5)] col) = some 5 :=
  local_refilter_invariant rmC10 5 [] [("point.media.id", Json.jint 5)]
    (List.Mem.head _)

/- ===== C2 ===== -/

/-- C2: with the underlying record data fixed, a successful preferred
(server-side flattening) export and a successful fallback export produce
row-for-row equivalent tables: the same number of rows and the same value
in every column both tables present (the fallback may drop requested
columns that are absent). This covers both the media-collection export
(JSON fallback) and the annotation-set export (no-include-columns CSV
fallback). -/
theorem export_fallback_equivalence :
    (∀ (recs : List Json) (inc_cols : List String) (rm1 rm2 : MediaRemote)
        (T1 T2 : Table),
        rm1.csvExport (includeWithRequired inc_cols)
            = Except.ok (serverNormalizeCsv recs (includeWithRequired inc_cols)) →
        rm2.csvExport (includeWithRequired inc_cols) = Except.error () →
        rm2.jsonExport (includeWithRequired inc_cols)
            = Except.ok (objOf [("objects", arrOf recs)]) →
        export_media_collection_csv rm1 inc_cols = Except.ok T1 →
        export_media_collection_csv rm2 inc_cols = Except.ok T2 →
        T2.rows.length = T1.rows.length ∧
        ∀ i c, c ∈ T2.cols → c ∈ T1.cols → T2.cell i c = T1.cell i c) ∧
    (∀ (recs : List Json) (inc_cols : List String) (am1 am2 : AnnSetRemote)
        (S1 S2 : Table),
        am1.csvExport (some inc_cols) = Except.ok (serverNormalizeCsv recs inc_cols) →
        am2.csvExport (some inc_cols) = Except.error () →
        am2.csvExport none = Except.ok (jsonNormalizeTable recs) →
        export_annotation_set_csv am1 inc_cols = Except.ok S1 →
        export_annotation_set_csv am2 inc_cols = Except.ok S2 →
        S2.rows.length = S1.rows.length ∧
        ∀ i c, c ∈ S2.cols → c ∈ S1.cols → S2.cell i c = S1.cell i c) := by
  constructor
  · intro recs inc_cols rm1 rm2 T1 T2 h1 h2c h2j e1 e2
    have hT1 : T1 = serverNormalizeCsv recs (includeWithRequired inc_cols) := by
      simp only [export_media_collection_csv] at e1
      rw [h1] at e1
      injection e1 with e1'
      exact e1'.symm
    have hget : toRecList (getObjects (objOf [("objects", arrOf recs)]))
        = recs := by
      show toRecList (arrOf recs) = recs
      exact toRecList_arrOf recs
    have hT2 : T2.rows = recs.map normRow := by
      simp only [export_media_collection_csv, h2c, h2j, hget] at e2
      by_cases hk : ((includeWithRequired inc_cols).filter
          (fun c => (jsonNormalizeTable recs).cols.contains c)).isEmpty
      · rw [if_pos hk] at e2
        injection e2 with e2'
        rw [← e2']
        rfl
      · rw [if_neg hk] at e2
        injection e2 with e2'
        rw [← e2']
        rfl
    have hT1rows : T1.rows = recs.map normRow := by
      rw [hT1]; rfl
    refine ⟨by rw [hT2, hT1rows], ?_⟩
    intro i c _ _
    unfold Table.cell
    rw [hT2, hT1rows]
  · intro recs inc_cols am1 am2 S1 S2 g1 g2a g2b f1 f2
    have hS1 : S1 = serverNormalizeCsv recs inc_cols := by
      simp only [export_annotation_set_csv] at f1
      rw [g1] at f1
      injection f1 with f1'
      exact f1'.symm
    have hS2 : S2.rows = recs.map normRow := by
      simp only [export_annotation_set_csv, g2a, g2b] at f2
      by_cases hi : inc_cols.isEmpty
      · rw [if_pos hi] at f2
        injection f2 with f2'
        rw [← f2']
        rfl
      · rw [if_neg hi] at f2
        by_cases hk : (inc_cols.filter
            (fun c => (jsonNormalizeTable recs).cols.contains c)).isEmpty
        · rw [if_pos hk] at f2
          injection f2 with f2'
          rw [← f2']
          rfl
        · rw [if_neg hk] at f2
          injection f2 with f2'
          rw [← f2']
          rfl
    have hS1rows : S1.rows = recs.map normRow := by
      rw [hS1]; rfl
    refine ⟨by rw [hS2, hS1rows], ?_⟩
    intro i c _ _
    unfold Table.cell
    rw [hS2, hS1rows]

/-- Witness for C2: both exporters at the concrete remotes over the fixed
records; both succeed and the fallback results match the preferred ones
row for row. -/
theorem export_fallback_equivalence_witness :
    (export_media_collection_csv rm2C2 ["id"]
        = Except.ok (okTableOf (export_media_collection_csv rm2C2 ["id"]))) ∧
    ((okTableOf (export_media_collection_csv rm2C2 ["id"])).rows.length
        = (okTableOf (export_media_collection_csv rm1C2 ["id"])).rows.length) ∧
    (export_annotation_set_csv am2C2 ["id"]
        = Except.ok (okTableOf (export_annotation_set_csv am2C2 ["id"]))) ∧
    ((okTableOf (export_annotation_set_csv am2C2 ["id"])).rows.length
        = (okTableOf (export_annotation_set_csv am1C2 ["id"])).rows.length) := by
  refine ⟨rfl, ?_, rfl, ?_⟩
  · exact (export_fallback_equivalence.1 recsC2 ["id"] rm1C2 rm2C2
      (okTableOf (export_media_collection_csv rm1C2 ["id"]))
      (okTableOf (export_media_collection_csv rm2C2 ["id"]))
      rfl rfl rfl rfl rfl).1
  · exact (export_fallback_equivalence.2 recsC2 ["id"] am1C2 am2C2
      (okTableOf (export_annotation_set_csv am1C2 ["id"]))
      (okTableOf (export_annotation_set_csv am2C2 ["id"]))
      rfl rfl rfl rfl rfl).1

/- ===== C3 ===== -/

/-- Counterexample to C3: for the annotation-set export, the raw-JSON
representation of the resource is available and locally flattening it
would yield one row, yet the export fails — so when its preferred path
fails this exporter does not fall back to requesting the raw nested JSON;
its only fallback is re-requesting the server-side CSV flattening without
the include list. -/
theorem annset_fallback_not_json_cex :
    amJsonOnly.jsonExport ["id"]
      = Except.ok (objOf [("objects", arrOf [recC3])]) ∧
    (jsonNormalizeTable (toRecList (getObjects
        (objOf [("objects", arrOf [recC3])])))).rows.length = 1 ∧
    export_annotation_set_csv amJsonOnly ["id"] = Except.error () :=
  ⟨rfl, rfl, rfl⟩

/-- C3 (amended): when the preferred server-side flattening fails, the
media-collection export falls back to requesting the raw nested JSON of
the same resource and flattening it locally over the same field list,
while the annotation-set export falls back to re-requesting the
server-side CSV flattening without the include-column list and
restricting columns locally; neither uses any other fallback strategy. -/
theorem fallback_strategy_characterization :
    (∀ (rm : MediaRemote) (inc_cols : List String),
        rm.csvExport (includeWithRequired inc_cols) = Except.error () →
        export_media_collection_csv rm inc_cols =
          match rm.jsonExport (includeWithRequired inc_cols) with
          | Except.error e => Except.error e
          | Except.ok js =>
              let df := jsonNormalizeTable (toRecList (getObjects js))
              let keep := (includeWithRequired inc_cols).filter
                (fun c => df.cols.contains c)
              Except.ok (if keep.isEmpty then df else Table.mk keep df.rows)) ∧
    (∀ (am : AnnSetRemote) (inc_cols : List String),
        am.csvExport (some inc_cols) = Except.error () →
        export_annotation_set_csv am inc_cols =
          match am.csvExport none with
          | Except.error e => Except.error e
          | Except.ok df =>
              if inc_cols.isEmpty then Except.ok df
              else
                let cols := inc_cols.filter (fun c => df.cols.contains c)
                Except.ok (if cols.isEmpty then df else Table.mk cols df.rows)) := by
  constructor
  · intro rm inc_cols h
    simp only [export_media_collection_csv]
    rw [h]
  · intro am inc_cols h
    simp only [export_annotation_set_csv]
    rw [h]

/-- Witness for the amended C3 at concrete remotes with failing preferred
paths. -/
theorem fallback_strategy_characterization_witness :
    (export_media_collection_csv rm2C2 ["id"] =
      match rm2C2.jsonExport (includeWithRequired ["id"]) with
      | Except.error e => Except.error e
      | Except.ok js =>
          let df := jsonNormalizeTable (toRecList (getObjects js))
          let keep := (includeWithRequired ["id"]).filter
            (fun c => df.cols.contains c)
          Except.ok (if keep.isEmpty then df else Table.mk keep df.rows)) ∧
    (export_annotation_set_csv amJsonOnly ["id"] =
      match amJsonOnly.csvExport none with
      | Except.error e => Except.error e
      | Except.ok df =>
          if (["id"] : List String).isEmpty then Except.ok df
          else
            let cols := (["id"] : List String).filter (fun c => df.cols.contains c)
            Except.ok (if cols.isEmpty then df else Table.mk cols df.rows)) :=
  ⟨fallback_strategy_characterization.1 rm2C2 ["id"] rfl,
   fallback_strategy_characterization.2 amJsonOnly ["id"] rfl⟩

/- ===== C6 ===== -/

/-- Inserting a fresh key into the result dict appends an entry. -/
theorem updateAssoc_fresh (acc : List (Int × String)) (k : Int) (v : String)
    (h : ∀ p ∈ acc, p.1 ≠ k) : updateAssoc acc k v = acc ++ [(k, v)] := by
  have h' : acc.any (fun p => p.1 == k) = false := by
    rw [List.any_eq_false]
    intro p hp
    simpa using h p hp
  simp [updateAssoc, h']

/-- The download loop over rows with coercible ids and non-empty URLs
never raises; its result extends the accumulator by one entry per
successful download, and every entry either came from the accumulator or
carries the media id of some successfully downloaded row. -/
theorem dlGo_spec (dl : Int → String → Option String) (uc ic : String) :
    ∀ (rows : List Row) (acc : List (Int × String)),
      (∀ r ∈ rows, (pyInt (Row.get r ic)).isSome = true) →
      (∀ r ∈ rows, rowUrl uc r ≠ "") →
      (∀ r ∈ rows, ∀ p ∈ acc, p.1 ≠ rowMid ic r) →
      ((rows.map (rowMid ic)).Nodup) →
      ∃ l, dlGo dl uc ic rows acc = Except.ok l ∧
        l.length = acc.length
          + (rows.filter (fun r => (dl (rowMid ic r) (rowUrl uc r)).isSome)).length ∧
        (∀ p ∈ l, p ∈ acc ∨ ∃ r ∈ rows, p.1 = rowMid ic r ∧
            (dl (rowMid ic r) (rowUrl uc r)).isSome = true) := by
  intro rows
  induction rows with
  | nil =>
      intro acc _ _ _ _
      exact ⟨acc, rfl, by simp, fun p hp => Or.inl hp⟩
  | cons r rest ih =>
      intro acc hv hu hf hnd
      have hvr := hv r (List.mem_cons_self r rest)
      have hur := hu r (List.mem_cons_self r rest)
      obtain ⟨mid, hmid⟩ := Option.isSome_iff_exists.mp hvr
      have hmid' : rowMid ic r = mid := by simp [rowMid, hmid]
      have hurl : (pyUrlStr (Row.get r uc) == "") = false := by
        rw [beq_eq_false_iff_ne]
        exact fun hh => hur (by simpa [rowUrl] using hh)
      obtain ⟨hna, hnd'⟩ := List.nodup_cons.mp hnd
      have hv' : ∀ x ∈ rest, (pyInt (Row.get x ic)).isSome = true :=
        fun x hx => hv x (List.mem_cons_of_mem r hx)
      have hu' : ∀ x ∈ rest, rowUrl uc x ≠ "" :=
        fun x hx => hu x (List.mem_cons_of_mem r hx)
      have hrurl : rowUrl uc r = pyUrlStr (Row.get r uc) := rfl
      cases hdl : dl mid (pyUrlStr (Row.get r uc)) with
      | some p =>
          have hfr : ∀ q ∈ acc, q.1 ≠ mid := by
            intro q hq
            rw [← hmid']
            exact hf r (List.mem_cons_self r rest) q hq
          have hstep : dlGo dl uc ic (r :: rest) acc
              = dlGo dl uc ic rest (acc ++ [(mid, p)]) := by
            simp [dlGo, hurl, hmid, hdl, updateAssoc_fresh acc mid p hfr]
          have hf' : ∀ x ∈ rest, ∀ q ∈ acc ++ [(mid, p)], q.1 ≠ rowMid ic x := by
            intro x hx q hq
            rcases List.mem_append.mp hq with hq | hq
            · exact hf x (List.mem_cons_of_mem r hx) q hq
            · have hq' : q = (mid, p) := by simpa using hq
              rw [hq']
              intro hcontra
              have hcontra' : mid = rowMid ic x := hcontra
              exact hna (by
                rw [hmid', hcontra']
                exact List.mem_map_of_mem (rowMid ic) hx)
          obtain ⟨l, hl, hlen, hmem⟩ := ih (acc ++ [(mid, p)]) hv' hu' hf' hnd'
          refine ⟨l, by rw [hstep]; exact hl, ?_, ?_⟩
          · rw [List.filter_cons, if_pos (by simp [hmid', hrurl, hdl])]
            simp only [List.length_append, List.length_cons, List.length_nil]
              at hlen ⊢
            omega
          · intro q hq
            rcases hmem q hq with hin | ⟨x, hx, hqx, hsome⟩
            · rcases List.mem_append.mp hin with hin | hin
              · exact Or.inl hin
              · have hq' : q = (mid, p) := by simpa using hin
                refine Or.inr ⟨r, List.mem_cons_self r rest, ?_, ?_⟩
                · rw [hq', hmid']
                · rw [hmid', hrurl, hdl]; rfl
            · exact Or.inr ⟨x, List.mem_cons_of_mem r hx, hqx, hsome⟩
      | none =>
          have hstep : dlGo dl uc ic (r :: rest) acc = dlGo dl uc ic rest acc := by
            simp [dlGo, hurl, hmid, hdl]
          have hf' : ∀ x ∈ rest, ∀ q ∈ acc, q.1 ≠ rowMid ic x :=
            fun x hx => hf x (List.mem_cons_of_mem r hx)
          obtain ⟨l, hl, hlen, hmem⟩ := ih acc hv' hu' hf' hnd'
          refine ⟨l, by rw [hstep]; exact hl, ?_, ?_⟩
          · rw [List.filter_cons, if_neg (by simp [hmid', hrurl, hdl])]
            exact hlen
          · intro q hq
            rcases hmem q hq with hin | ⟨x, hx, hqx, hsome⟩
            · exact Or.inl hin
            · exact Or.inr ⟨x, List.mem_cons_of_mem r hx, hqx, hsome⟩

/-- In a duplicate-free list where exactly the distinguished element fails
the test, the filtered list is one element shorter. -/
theorem filter_succ_length {α : Type} (P : α → Bool) :
    ∀ (rows : List α) (bad : α), rows.Nodup → bad ∈ rows →
      (∀ r ∈ rows, (P r = false ↔ r = bad)) →
      (rows.filter P).length + 1 = rows.length := by
  intro rows
  induction rows with
  | nil => intro bad _ hbad _; cases hbad
  | cons a rest ih =>
      intro bad hnd hbad hP
      obtain ⟨hna, hnd'⟩ := List.nodup_cons.mp hnd
      by_cases ha : a = bad
      · have hPa : P a = false := (hP a (List.mem_cons_self a rest)).mpr ha
        rw [List.filter_cons, if_neg (by simp [hPa])]
        have hall : rest.filter P = rest := by
          rw [List.filter_eq_self]
          intro x hx
          cases hPx : P x with
          | true => rfl
          | false =>
              have hxbad := (hP x (List.mem_cons_of_mem a hx)).mp hPx
              rw [← ha] at hxbad
              exact absurd (hxbad ▸ hx) hna
        rw [hall]
        simp
      · have hbad' : bad ∈ rest := by
          rcases List.mem_cons.mp hbad with h | h
          · exact absurd h.symm ha
          · exact h
        have hPa : P a = true := by
          cases hPa : P a with
          | true => rfl
          | false => exact absurd ((hP a (List.mem_cons_self a rest)).mp hPa) ha
        rw [List.filter_cons, if_pos (by simp [hPa])]
        have := ih bad hnd' hbad' (fun x hx => hP x (List.mem_cons_of_mem a hx))
        simp only [List.length_cons]
        omega

/-- C6: (skip clause) a row whose URL field is falsy is skipped before any
work is scheduled and does not affect the batch; (isolation clause) for a
media table of rows with coercible, pairwise-distinct identifiers and
non-empty URLs in which exactly one row's download fails, the batch
raises no exception and returns a mapping with exactly N-1 entries, the
failed identifier absent. -/
theorem bulk_download_isolation :
    (∀ (dl : Int → String → Option String) (uc ic : String) (cols : List String)
        (r : Row) (rest : List Row),
        pyUrlStr (Row.get r uc) = "" →
        download_images_from_export (Table.mk cols (r :: rest)) dl uc ic
          = download_images_from_export (Table.mk cols rest) dl uc ic) ∧
    (∀ (dl : Int → String → Option String) (uc ic : String) (cols : List String)
        (rows : List Row) (bad : Row),
        (∀ r ∈ rows, (pyInt (Row.get r ic)).isSome = true) →
        (∀ r ∈ rows, rowUrl uc r ≠ "") →
        ((rows.map (rowMid ic)).Nodup) →
        bad ∈ rows →
        (∀ r ∈ rows, (dl (rowMid ic r) (rowUrl uc r) = none ↔ r = bad)) →
        ∃ l, download_images_from_export (Table.mk cols rows) dl uc ic
            = Except.ok l ∧
          l.length + 1 = rows.length ∧
          ∀ p ∈ l, p.1 ≠ rowMid ic bad) := by
  constructor
  · intro dl uc ic cols r rest h
    unfold download_images_from_export
    simp [dlGo, h]
  · intro dl uc ic cols rows bad hv hu hnd hbad hfail
    obtain ⟨l, hl, hlen, hmem⟩ := dlGo_spec dl uc ic rows []
      hv hu (by intro x _ q hq; cases hq) hnd
    have hPiff : ∀ r ∈ rows,
        ((dl (rowMid ic r) (rowUrl uc r)).isSome = false ↔ r = bad) := by
      intro r hr
      constructor
      · intro hP
        cases hd : dl (rowMid ic r) (rowUrl uc r) with
        | none => exact (hfail r hr).mp hd
        | some p => rw [hd] at hP; cases hP
      · intro hrb
        rw [(hfail r hr).mpr hrb]
        rfl
    refine ⟨l, hl, ?_, ?_⟩
    · have hcount := filter_succ_length
        (fun r => (dl (rowMid ic r) (rowUrl uc r)).isSome) rows bad
        (List.Nodup.of_map (rowMid ic) hnd) hbad hPiff
      rw [hlen]
      simpa using hcount
    · intro p hp
      rcases hmem p hp with hin | ⟨r, hr, hpr, hsome⟩
      · cases hin
      · intro hcontra
        have hmids : rowMid ic r = rowMid ic bad := by rw [← hpr, hcontra]
        have hreq : r = bad := List.inj_on_of_nodup_map hnd hr hbad hmids
        rw [hreq, (hfail bad hbad).mpr rfl] at hsome
        cases hsome

/-- Witness for C6: three rows, one failing download, two entries saved
and the failed id absent. -/
theorem bulk_download_isolation_witness :
    ∃ l, download_images_from_export (Table.mk ["id", "path_best"] dlRowsC6)
        dlOracleC6 ("path_best") ("id") = Except.ok l ∧
      l.length + 1 = dlRowsC6.length ∧
      ∀ p ∈ l, p.1 ≠ rowMid ("id") rowC6b :=
  bulk_download_isolation.2 dlOracleC6 ("path_best") ("id") ["id", "path_best"]
    dlRowsC6 rowC6b
    (by decide) (by decide) (by decide)
    (List.mem_cons_of_mem _ (List.mem_cons_self _ _))
    (by
      intro r hr
      simp only [dlRowsC6, List.mem_cons, List.not_mem_nil, or_false] at hr
      rcases hr with rfl | rfl | rfl <;>
        simp [dlOracleC6, rowMid, rowUrl, rowC6a, rowC6b, rowC6c, Row.get,
          pyUrlStr, pyInt])

end Squidle
